import Mathlib

/-!
# MLX90363 driver interface: a shallow embedding of `MLX90363.h`

The header declares the sensor record (one per sensor instance), the bus-wide
static transfer state, the opcode and message-type vocabularies, the alpha
constants, and gives bodies for `hasNewData`, `isTransmitting` and the typed
getters.  Machine integers are natural numbers; `unsigned char` values are
bytes (below 256) and `unsigned short` values are below 65536.  A member
function that may touch the object is embedded as a function returning its
result together with the object after the call.
-/

namespace MLX90363

/-! ## Constants -/

/-- The fixed message length that the MLX90363 sends (`messageLength`). -/
def messageLength : Nat := 8

/-- Width of the alpha field (`alphaBits`). -/
def alphaBits : Nat := 14

/-- The constant `alphaModulo = 1 << alphaBits`. -/
def alphaModulo : Nat := 1 <<< alphaBits

/-- The constant `alphaMask = alphaModulo - 1`. -/
def alphaMask : Nat := alphaModulo - 1

/-! ## Enumerations -/

/-- OpCodes from the MLX90363 datasheet (`enum class Opcode`). -/
inductive Opcode where
  | GET1
  | GET2
  | GET3
  | Get3Ready
  | MemoryRead
  | MemoryRead_Answer
  | EEPROMWrite
  | EEPROMWrite_Challenge
  | EEChallengeAns
  | EEReadAnswer
  | EEReadChallenge
  | EEPROMWrite_Status
  | NOP__Challenge
  | Challenge__NOP_MISO_Packet
  | DiagnosticDetails
  | Diagnostics_Answer
  | OscCounterStart
  | OscCounterStart_Acknowledge
  | OscCounterStop
  | OscCounterStopAck_CounterValue
  | Reboot
  | Standby
  | StandbyAck
  | Error_frame
  | NothingToTransmit
  | Ready_Message
  deriving DecidableEq, Repr

/-- Numeric value of each `Opcode` enumerator, as written in the header. -/
def Opcode.toNat : Opcode → Nat
  | .GET1 => 0x13
  | .GET2 => 0x14
  | .GET3 => 0x15
  | .Get3Ready => 0x2D
  | .MemoryRead => 0x01
  | .MemoryRead_Answer => 0x02
  | .EEPROMWrite => 0x03
  | .EEPROMWrite_Challenge => 0x04
  | .EEChallengeAns => 0x05
  | .EEReadAnswer => 0x28
  | .EEReadChallenge => 0x0F
  | .EEPROMWrite_Status => 0x0E
  | .NOP__Challenge => 0x10
  | .Challenge__NOP_MISO_Packet => 0x11
  | .DiagnosticDetails => 0x16
  | .Diagnostics_Answer => 0x17
  | .OscCounterStart => 0x18
  | .OscCounterStart_Acknowledge => 0x19
  | .OscCounterStop => 0x1A
  | .OscCounterStopAck_CounterValue => 0x1B
  | .Reboot => 0x2F
  | .Standby => 0x31
  | .StandbyAck => 0x32
  | .Error_frame => 0x3D
  | .NothingToTransmit => 0x3E
  | .Ready_Message => 0x2C

/-- States of the response handling (`enum class ResponseState`). -/
inductive ResponseState where
  | Init
  | Ready
  | Receiving
  | Received
  | failedCRC
  | TypeA
  | TypeAB
  | TypeXYZ
  | Other
  deriving DecidableEq, Repr

/-- The 2-bit marker attached to all incoming messages (`enum class MessageType`). -/
inductive MessageType where
  | Alpha
  | AlphaBeta
  | XYZ
  | Other
  deriving DecidableEq, Repr

/-- Numeric value of each `MessageType` enumerator, as written in the header. -/
def MessageType.toNat : MessageType → Nat
  | .Alpha => 0
  | .AlphaBeta => 1
  | .XYZ => 2
  | .Other => 3

/-! ## Data model -/

/-- The per-instance members of `class MLX90363`. -/
structure Sensor where
  alpha : Nat
  beta : Nat
  X : Nat
  Y : Nat
  Z : Nat
  err : Nat
  VG : Nat
  ROLL : Nat
  pin : Nat
  dataReadyTime : Nat
  deriving DecidableEq, Repr

/-- The static members of `class MLX90363` that the transfer logic works on
(`spiSettings` and `currentMLX` are hardware handles and are left out). -/
structure Bus where
  TxBuffer : List Nat
  RxBuffer : List Nat
  bufferPosition : Nat
  responseState : ResponseState
  deriving DecidableEq, Repr

/-- Outcome of `hasNewData`: the returned flag, the caller's `lastRoll`
reference after the call, and the sensor object after the call. -/
structure HasNewData where
  ret : Bool
  lastRoll : Nat
  self : Sensor
  deriving DecidableEq, Repr

/-! ## Operations with a body in the header -/

/-- The member `hasNewData(unsigned char& lastRoll)`. -/
def hasNewData (self : Sensor) (lastRoll : Nat) : HasNewData :=
  let r := self.ROLL
  if r == lastRoll then { ret := false, lastRoll := lastRoll, self := self }
  else { ret := true, lastRoll := r, self := self }

/-- The static member `isTransmitting()`. -/
def isTransmitting (bus : Bus) : Bool :=
  bus.bufferPosition != messageLength

/-- The member `getAlpha()`: returned value and the object afterwards. -/
def getAlpha (self : Sensor) : Nat × Sensor := (self.alpha, self)

/-- The member `getBeta()`: returned value and the object afterwards. -/
def getBeta (self : Sensor) : Nat × Sensor := (self.beta, self)

/-- The member `getX()`: returned value and the object afterwards. -/
def getX (self : Sensor) : Nat × Sensor := (self.X, self)

/-- The member `getY()`: returned value and the object afterwards. -/
def getY (self : Sensor) : Nat × Sensor := (self.Y, self)

/-- The member `getZ()`: returned value and the object afterwards. -/
def getZ (self : Sensor) : Nat × Sensor := (self.Z, self)

/-- The member `getRoll()`: returned value and the object afterwards. -/
def getRoll (self : Sensor) : Nat × Sensor := (self.ROLL, self)

/-- The member `getErr()`: returned value and the object afterwards. -/
def getErr (self : Sensor) : Nat × Sensor := (self.err, self)

/-! ## The frame checksum

The header only declares `fillTxBufferCRC` and `checkRxBufferCRC`; their bodies
and the checksum algorithm are not part of it.  The checksum function is taken
as a parameter `crc`, and the two operations follow the specified contract. -/

/-- Modelled from the spec: the checksum routine used by `fillTxBufferCRC` and
`checkRxBufferCRC`, whose algorithm is missing from the header.  It is a pure
function of the first 7 bytes of a frame and yields one byte; `crc` is the
unspecified algorithm. -/
def checksum (crc : List Nat → Nat) (frame : List Nat) : Nat :=
  crc (frame.take (messageLength - 1)) % 256

/-- Modelled from the spec: the body of `fillTxBufferCRC`, missing from the
header.  It computes the checksum of the message in `TxBuffer` and writes it
into the checksum byte, offset 7, of `TxBuffer`. -/
def fillTxBufferCRC (crc : List Nat → Nat) (bus : Bus) : Bus :=
  { bus with TxBuffer := bus.TxBuffer.set (messageLength - 1) (checksum crc bus.TxBuffer) }

/-- Modelled from the spec: the body of `checkRxBufferCRC`, missing from the
header.  It recomputes the checksum over the first 7 bytes of `RxBuffer` and
compares it to byte 7; a mismatch gives false. -/
def checkRxBufferCRC (crc : List Nat → Nat) (bus : Bus) : Bool :=
  bus.RxBuffer[messageLength - 1]? == some (checksum crc bus.RxBuffer)

/-- A sample transfer state: a staged request whose checksum byte is not yet
filled in, an empty receive side, idle cursor. -/
def sampleBus : Bus :=
  { TxBuffer := [0, 0, 0xFF, 0xFF, 0, 0, 0x13, 0]
    RxBuffer := [0, 0, 0, 0, 0, 0, 0, 0]
    bufferPosition := 8
    responseState := ResponseState.Init }

/-- A sample checksum algorithm for evaluating the codec: the byte sum. -/
def sampleCrc (bytes : List Nat) : Nat := bytes.sum

/-! ## Theorems -/

/-- Writing at position `n` does not change the first `n` elements. -/
theorem take_set_self {α : Type} (l : List α) (n : Nat) (a : α) :
    (l.set n a).take n = l.take n := by
  rw [List.set_take]
  exact List.set_eq_of_length_le (by simp)

/-- C1: `hasNewData(lastRoll)` returns true exactly when the record's ROLL
differs from `lastRoll`; afterwards the caller's cache equals ROLL, being
overwritten with ROLL when they differed and left as it was when equal. -/
theorem hasNewData_spec (self : Sensor) (lastRoll : Nat) :
    ((hasNewData self lastRoll).ret = true ↔ self.ROLL ≠ lastRoll) ∧
    (hasNewData self lastRoll).lastRoll = self.ROLL ∧
    (self.ROLL ≠ lastRoll → (hasNewData self lastRoll).lastRoll = self.ROLL) ∧
    (self.ROLL = lastRoll → (hasNewData self lastRoll).lastRoll = lastRoll) := by
  unfold hasNewData
  by_cases h : self.ROLL = lastRoll
  · simp [h]
  · simp [h]

/-- C2: for every value of the transfer cursor, `isTransmitting()` returns true
exactly when `bufferPosition` differs from `messageLength`, which is 8; it
returns false exactly when the cursor equals the frame length. -/
theorem isTransmitting_spec (bus : Bus) :
    messageLength = 8 ∧
    (isTransmitting bus = true ↔ bus.bufferPosition ≠ messageLength) ∧
    (isTransmitting bus = false ↔ bus.bufferPosition = 8) := by
  unfold isTransmitting messageLength
  by_cases h : bus.bufferPosition = 8
  · simp [h]
  · simp [h]

/-- C3: for every 8-byte transmit buffer, once `fillTxBufferCRC` has written
the checksum, `checkRxBufferCRC` on a receive buffer holding the same 8 bytes
returns true, whatever the checksum algorithm is. -/
theorem checkRxBufferCRC_fillTxBufferCRC (crc : List Nat → Nat) (tx rx : Bus)
    (hlen : tx.TxBuffer.length = messageLength)
    (hsame : rx.RxBuffer = (fillTxBufferCRC crc tx).TxBuffer) :
    checkRxBufferCRC crc rx = true := by
  have h7 : messageLength - 1 < tx.TxBuffer.length := by
    rw [hlen]; decide
  unfold checkRxBufferCRC
  rw [hsame]
  simp only [fillTxBufferCRC, checksum]
  rw [take_set_self]
  simp [h7]

/-- Witness for C3: the sample request, with the byte sum as checksum, passes
verification after its checksum byte is filled in. -/
theorem checkRxBufferCRC_fillTxBufferCRC_witness :
    checkRxBufferCRC sampleCrc
      { sampleBus with RxBuffer := (fillTxBufferCRC sampleCrc sampleBus).TxBuffer } = true :=
  checkRxBufferCRC_fillTxBufferCRC sampleCrc sampleBus
    { sampleBus with RxBuffer := (fillTxBufferCRC sampleCrc sampleBus).TxBuffer } rfl rfl

/-- C4: the alpha constants describe a 14-bit field: `alphaBits = 14`,
`alphaModulo = 2^14 = 16384`, `alphaMask = alphaModulo - 1 = 16383`; masking
any unsigned integer with `alphaMask` is reduction modulo `alphaModulo`, and the
result is below `2^14`. -/
theorem alpha_constants_spec :
    alphaBits = 14 ∧ alphaModulo = 2 ^ 14 ∧ alphaModulo = 16384 ∧
    alphaMask = alphaModulo - 1 ∧ alphaMask = 16383 ∧
    ∀ x : Nat, x &&& alphaMask = x % alphaModulo ∧ x &&& alphaMask < 2 ^ 14 := by
  have hm : alphaModulo = 2 ^ 14 := by decide
  have hk : alphaMask = 2 ^ 14 - 1 := by decide
  refine ⟨rfl, hm, by decide, rfl, by decide, ?_⟩
  intro x
  rw [hk, hm, Nat.and_pow_two_sub_one_eq_mod]
  exact ⟨rfl, Nat.mod_lt _ (by decide)⟩

/-- C5: the message type marker is total over 2 bits: every `n < 4` is the
value of exactly one `MessageType` (Alpha 0, AlphaBeta 1, XYZ 2, Other 3), and
every `MessageType` has a value below 4. -/
theorem messageType_total :
    (∀ n : Nat, n < 4 → ∃! m : MessageType, m.toNat = n) ∧
    (∀ m : MessageType, m.toNat < 4) ∧
    MessageType.Alpha.toNat = 0 ∧ MessageType.AlphaBeta.toNat = 1 ∧
    MessageType.XYZ.toNat = 2 ∧ MessageType.Other.toNat = 3 := by
  refine ⟨?_, ?_, rfl, rfl, rfl, rfl⟩
  · intro n hn
    have hcases : n = 0 ∨ n = 1 ∨ n = 2 ∨ n = 3 := by omega
    rcases hcases with rfl | rfl | rfl | rfl
    · exact ⟨.Alpha, rfl, fun m hm => by cases m <;> simp_all [MessageType.toNat]⟩
    · exact ⟨.AlphaBeta, rfl, fun m hm => by cases m <;> simp_all [MessageType.toNat]⟩
    · exact ⟨.XYZ, rfl, fun m hm => by cases m <;> simp_all [MessageType.toNat]⟩
    · exact ⟨.Other, rfl, fun m hm => by cases m <;> simp_all [MessageType.toNat]⟩
  · intro m
    cases m <;> simp [MessageType.toNat]

/-- C6: calling `hasNewData` twice in a row on the same unchanged record, the
second time with the cache as the first call left it, makes the second call
return false and leave the cache unchanged. -/
theorem hasNewData_twice (self : Sensor) (lastRoll : Nat) :
    (hasNewData (hasNewData self lastRoll).self (hasNewData self lastRoll).lastRoll).ret
        = false ∧
    (hasNewData (hasNewData self lastRoll).self (hasNewData self lastRoll).lastRoll).lastRoll
        = (hasNewData self lastRoll).lastRoll ∧
    (hasNewData self (hasNewData self lastRoll).lastRoll).ret = false ∧
    (hasNewData self (hasNewData self lastRoll).lastRoll).lastRoll
        = (hasNewData self lastRoll).lastRoll := by
  unfold hasNewData
  by_cases h : self.ROLL = lastRoll
  · simp [h]
  · simp [h]

/-- C7: the typed getters return the stored fields verbatim, with no masking
or conversion, and none of them changes the record. -/
theorem getters_verbatim (self : Sensor) :
    (getAlpha self = (self.alpha, self)) ∧
    (getBeta self = (self.beta, self)) ∧
    (getX self = (self.X, self)) ∧
    (getY self = (self.Y, self)) ∧
    (getZ self = (self.Z, self)) ∧
    (getRoll self = (self.ROLL, self)) ∧
    (getErr self = (self.err, self)) :=
  ⟨rfl, rfl, rfl, rfl, rfl, rfl, rfl⟩

/-- C8: the numeric values of the `Opcode` enumerators are pairwise distinct:
the map from `Opcode` to its numeric value is injective. -/
theorem opcode_toNat_injective : Function.Injective Opcode.toNat := by
  intro a b h
  cases a <;> cases b <;> first | rfl | (exact absurd h (by decide))

/-- C9: every `Opcode` enumerator has a numeric value below 64, so an opcode
in the low 6 bits and a message type marker in the 2 bits above it make one
byte from which both are read back unchanged. -/
theorem opcode_fits_six_bits :
    (∀ o : Opcode, o.toNat < 64) ∧
    (∀ (o : Opcode) (m : MessageType),
      m.toNat * 64 + o.toNat < 256 ∧
      (m.toNat * 64 + o.toNat) % 64 = o.toNat ∧
      (m.toNat * 64 + o.toNat) / 64 = m.toNat ∧
      (m.toNat <<< 6) &&& o.toNat = 0) := by
  have h64 : ∀ o : Opcode, o.toNat < 64 := by
    intro o
    cases o <;> decide
  refine ⟨h64, ?_⟩
  intro o m
  have ho := h64 o
  have hm : m.toNat < 4 := by cases m <;> decide
  refine ⟨by omega, by omega, by omega, ?_⟩
  cases m <;> cases o <;> decide

/-- C10: `hasNewData` is read-only on the sensor record: whatever it returns,
the fields alpha, beta, X, Y, Z, err, VG and ROLL hold afterwards the values
they had before the call. -/
theorem hasNewData_readonly (self : Sensor) (lastRoll : Nat) :
    (hasNewData self lastRoll).self = self ∧
    (hasNewData self lastRoll).self.alpha = self.alpha ∧
    (hasNewData self lastRoll).self.beta = self.beta ∧
    (hasNewData self lastRoll).self.X = self.X ∧
    (hasNewData self lastRoll).self.Y = self.Y ∧
    (hasNewData self lastRoll).self.Z = self.Z ∧
    (hasNewData self lastRoll).self.err = self.err ∧
    (hasNewData self lastRoll).self.VG = self.VG ∧
    (hasNewData self lastRoll).self.ROLL = self.ROLL := by
  have h : (hasNewData self lastRoll).self = self := by
    unfold hasNewData
    by_cases hr : self.ROLL = lastRoll
    · simp [hr]
    · simp [hr]
  simp [h]

end MLX90363
